import Mathlib

/-!
Shallow embedding of the vector-algebra and projectile core of the
ballistics-calculator repository (src/src/types.rs and
src/src/projectiles/mod.rs).  Rust `f64` values are idealised as real
numbers; `f64::sqrt`, `atan`, `sin`, `cos` become `Real.sqrt`,
`Real.arctan`, `Real.sin`, `Real.cos`.  Code that unconditionally panics
(`todo!()`) is embedded as `Option` returning `none`.  Where a claim is
specifically about IEEE-754 NaN propagation, a small explicit model of
IEEE special values (`FVal`) is used for the two operations involved.
-/

noncomputable section

/-- A 3-dimensional Cartesian vector (struct `Vec3D` in src/src/types.rs). -/
structure Vec3D where
  x : ℝ
  y : ℝ
  z : ℝ

/-- A 2-dimensional Cartesian vector (struct `Vec2D` in src/src/types.rs). -/
structure Vec2D where
  x : ℝ
  y : ℝ

/-- A 3-dimensional spherical vector (struct `Vec3DSphere` in src/src/types.rs).
Its doc comments describe `azimuth` as the horizontal angle from the x axis,
`polar` as the angle from the z axis, and `radius` as the distance from the
origin. -/
structure Vec3DSphere where
  azimuth : ℝ
  polar : ℝ
  radius : ℝ

/-- A 2-dimensional spherical vector (struct `Vec2DSphere` in src/src/types.rs). -/
structure Vec2DSphere where
  polar : ℝ
  radius : ℝ

/-- Source: `Vec3D::length`, `sqrt(x^2 + y^2 + z^2)` via `powi(2)` and `sqrt`. -/
def Vec3D.length (v : Vec3D) : ℝ :=
  Real.sqrt (v.x ^ 2 + v.y ^ 2 + v.z ^ 2)

/-- Source: `Vec3D::length_xy`, `sqrt(x^2 + y^2)`. -/
def Vec3D.length_xy (v : Vec3D) : ℝ :=
  Real.sqrt (v.x ^ 2 + v.y ^ 2)

/-- Source: `Vec3D::to_2d`, `Vec2D { x: self.length_xy(), y: self.z }`. -/
def Vec3D.to_2d (v : Vec3D) : Vec2D :=
  ⟨v.length_xy, v.z⟩

/-- Source: `Vec3D::to_sphere`: radius is `self.length()`, azimuth is
`(self.y / self.x).atan()`, polar is `(self.z / self.length_xy()).atan()`.
Real division idealises the IEEE error paths (`y / 0` and `z / 0` become 0
here, where f64 yields ±infinity or NaN); `Vec3D.to_sphere_fp` below makes
those paths explicit, and the two agree whenever `x ≠ 0`. -/
def Vec3D.to_sphere (v : Vec3D) : Vec3DSphere :=
  ⟨Real.arctan (v.y / v.x), Real.arctan (v.z / v.length_xy), v.length⟩

/-- Source: `Vec3DSphere::to_vec`:
`x = radius * azimuth.cos() * polar.sin()`,
`y = radius * azimuth.sin() * polar.sin()`,
`z = radius * polar.cos()`. -/
def Vec3DSphere.to_vec (s : Vec3DSphere) : Vec3D :=
  ⟨s.radius * Real.cos s.azimuth * Real.sin s.polar,
   s.radius * Real.sin s.azimuth * Real.sin s.polar,
   s.radius * Real.cos s.polar⟩

/-- Source: `Vec3D::update_length`: converts to spherical, overwrites the
radius with the new length, converts back to Cartesian. -/
def Vec3D.update_length (v : Vec3D) (new : ℝ) : Vec3D :=
  ({ v.to_sphere with radius := new } : Vec3DSphere).to_vec

/-- Source: `Vec2D::length` is `todo!("Implement this function")`, which
unconditionally panics; panicking code is embedded as `Option` with the
panic mapped to `none`. -/
def Vec2D.length (_v : Vec2D) : Option ℝ :=
  none

/-- Source: `Vec2D::to_sphere` is `todo!("Implement this function")`, which
unconditionally panics; embedded as `none`. -/
def Vec2D.to_sphere (_v : Vec2D) : Option Vec2DSphere :=
  none

/-- Result of an IEEE-754 double operation: NaN, a signed infinity, or a
finite value (finite values idealised as reals). -/
inductive FVal
  | nan : FVal
  | pinf : FVal
  | ninf : FVal
  | fin : ℝ → FVal

/-- IEEE-754 division of two finite doubles: a nonzero divisor gives the
finite quotient, `0.0 / 0.0` is NaN, and a nonzero numerator over zero gives
a signed infinity. -/
def ieeeDiv (a b : ℝ) : FVal :=
  if b ≠ 0 then .fin (a / b)
  else if a = 0 then .nan
  else if 0 < a then .pinf else .ninf

/-- IEEE-754 `atan` extended to special values: `atan(NaN)` is NaN and
`atan` of a signed infinity is the corresponding quarter-turn limit. -/
def ieeeAtan : FVal → FVal
  | .nan => .nan
  | .pinf => .fin (Real.pi / 2)
  | .ninf => .fin (-(Real.pi / 2))
  | .fin r => .fin (Real.arctan r)

/-- The angle computations of `Vec3D::to_sphere` with the IEEE-754 behaviour
of the embedded divisions and arctangents made explicit; the result is the
triple (azimuth, polar, radius). -/
def Vec3D.to_sphere_fp (v : Vec3D) : FVal × FVal × FVal :=
  (ieeeAtan (ieeeDiv v.y v.x), ieeeAtan (ieeeDiv v.z v.length_xy), .fin v.length)

/-- Modelled from the spec: the projectile state of section 4.2.  The source
(`src/src/projectiles/mod.rs`, module `simple`) declares only the fields
`velocity` and `gravity` (and references a nonexistent type
`Vec2DCartesian`, a merge artifact the spec says to canonicalise to the
plain 2D Cartesian vector); the position field and the `advance` operation
are absent from src and are taken from the spec: gravity is an acceleration
magnitude, positive meaning downward along the vertical (y) axis. -/
structure Projectile where
  velocity : Vec2D
  position : Vec2D
  gravity : ℝ

/-- Modelled from the spec: `advance(time_delta)` of section 4.2, which is
not implemented in src.  Position is updated by
`position += velocity * dt + 0.5 * gravity_vector * dt^2` and velocity by
`velocity += gravity_vector * dt`, where the gravity vector is
`(0, -gravity)`; gravity acts only on the vertical component. -/
def Projectile.advance (p : Projectile) (dt : ℝ) : Projectile :=
  ⟨⟨p.velocity.x, p.velocity.y - p.gravity * dt⟩,
   ⟨p.position.x + p.velocity.x * dt,
    p.position.y + p.velocity.y * dt - (1 / 2) * p.gravity * dt ^ 2⟩,
   p.gravity⟩

/-- Property: a spherical vector has nonnegative radius and both of its
angles strictly inside the open interval from -π/2 to π/2. -/
def SphereInRange (s : Vec3DSphere) : Prop :=
  0 ≤ s.radius ∧ -(Real.pi / 2) < s.azimuth ∧ s.azimuth < Real.pi / 2 ∧
    -(Real.pi / 2) < s.polar ∧ s.polar < Real.pi / 2

/-- Helper: the Cartesian vector produced by `Vec3DSphere::to_vec` always has
Euclidean length equal to the absolute value of the radius field. -/
lemma length_to_vec (s : Vec3DSphere) : (s.to_vec).length = |s.radius| := by
  unfold Vec3DSphere.to_vec Vec3D.length
  have ha := Real.cos_sq_add_sin_sq s.azimuth
  have hp := Real.sin_sq_add_cos_sq s.polar
  have hs : (s.radius * Real.cos s.azimuth * Real.sin s.polar) ^ 2 +
      (s.radius * Real.sin s.azimuth * Real.sin s.polar) ^ 2 +
      (s.radius * Real.cos s.polar) ^ 2 = s.radius ^ 2 := by
    calc (s.radius * Real.cos s.azimuth * Real.sin s.polar) ^ 2 +
        (s.radius * Real.sin s.azimuth * Real.sin s.polar) ^ 2 +
        (s.radius * Real.cos s.polar) ^ 2
        = s.radius ^ 2 * ((Real.cos s.azimuth ^ 2 + Real.sin s.azimuth ^ 2) *
            Real.sin s.polar ^ 2 + Real.cos s.polar ^ 2) := by ring
      _ = s.radius ^ 2 := by rw [ha, one_mul, hp, mul_one]
  rw [hs]
  exact Real.sqrt_sq_eq_abs _

/-- Helper: `advance` never changes the gravity field, over any number of
iterated steps. -/
lemma iterate_advance_gravity (p : Projectile) (dt : ℝ) (n : ℕ) :
    ((fun q => Projectile.advance q dt)^[n] p).gravity = p.gravity := by
  induction n with
  | zero => rfl
  | succ n ih => rw [Function.iterate_succ_apply']; exact ih

/-- Helper: the xy-plane length of the all-ones vector is the square root
of 2. -/
lemma length_xy_unit : Vec3D.length_xy ⟨1, 1, 1⟩ = Real.sqrt 2 := by
  unfold Vec3D.length_xy; norm_num

/-- Helper: the length of the all-ones vector is the square root of 3. -/
lemma length_unit : Vec3D.length ⟨1, 1, 1⟩ = Real.sqrt 3 := by
  unfold Vec3D.length; norm_num

/-- Helper: cosine of the arctangent of 1. -/
lemma cos_arctan_one : Real.cos (Real.arctan 1) = 1 / Real.sqrt 2 := by
  rw [Real.cos_arctan]; norm_num

/-- Helper: squaring the reciprocal of the square root of 2. -/
lemma inv_sqrt_two_sq : (1 / Real.sqrt 2) ^ 2 = 1 / 2 := by
  rw [div_pow, one_pow, Real.sq_sqrt (by norm_num : (0 : ℝ) ≤ 2)]

/-- Helper: cosine of the arctangent of the reciprocal of the square root
of 2. -/
lemma cos_arctan_inv_sqrt_two :
    Real.cos (Real.arctan (1 / Real.sqrt 2)) = Real.sqrt 2 / Real.sqrt 3 := by
  have h2 : (0 : ℝ) < Real.sqrt 2 := Real.sqrt_pos.mpr (by norm_num)
  have h3 : (0 : ℝ) < Real.sqrt 3 := Real.sqrt_pos.mpr (by norm_num)
  rw [Real.cos_arctan, inv_sqrt_two_sq,
    show (1 : ℝ) + 1 / 2 = 3 / 2 by norm_num,
    Real.sqrt_div (by norm_num : (0 : ℝ) ≤ 3)]
  field_simp

/-- Helper: sine of the arctangent of the reciprocal of the square root
of 2. -/
lemma sin_arctan_inv_sqrt_two :
    Real.sin (Real.arctan (1 / Real.sqrt 2)) = 1 / Real.sqrt 3 := by
  have h2 : (0 : ℝ) < Real.sqrt 2 := Real.sqrt_pos.mpr (by norm_num)
  have h3 : (0 : ℝ) < Real.sqrt 3 := Real.sqrt_pos.mpr (by norm_num)
  have hm : Real.sqrt 2 * Real.sqrt 2 = 2 := Real.mul_self_sqrt (by norm_num)
  rw [Real.sin_arctan, inv_sqrt_two_sq,
    show (1 : ℝ) + 1 / 2 = 3 / 2 by norm_num,
    Real.sqrt_div (by norm_num : (0 : ℝ) ≤ 3)]
  rw [div_eq_div_iff (by positivity) (by positivity)]
  field_simp

/-- C10: for every 3D Cartesian vector, the x component of `to_2d()` is a
square root, hence non-negative: the 2D projection lies in the closed right
half-plane. -/
theorem to_2d_x_nonneg (v : Vec3D) : 0 ≤ (v.to_2d).x :=
  Real.sqrt_nonneg _

/-- C6, counterexample: the claimed open bound on the azimuth fails at the
vector (0, 1, 0): the program computes `atan(1.0 / 0.0)`, and under IEEE-754
arithmetic `1.0 / 0.0` is positive infinity, whose arctangent is exactly
π/2 — the boundary value, which the strict bound excludes. -/
theorem to_sphere_range_fails_at_x_zero :
    (Vec3D.to_sphere_fp ⟨0, 1, 0⟩).1 = FVal.fin (Real.pi / 2) ∧
    ¬(Real.pi / 2 < Real.pi / 2) := by
  constructor
  · norm_num [Vec3D.to_sphere_fp, ieeeDiv, ieeeAtan]
  · exact lt_irrefl _

/-- C6 (amended): for every 3D Cartesian vector with nonzero x component,
`to_sphere()` yields radius ≥ 0 and azimuth and polar both strictly between
-π/2 and π/2, by the range of the arctangent; moreover, for such vectors no
division by zero occurs, so the idealised real-division embedding agrees
with the IEEE evaluation of both angle computations. -/
theorem to_sphere_range_invariants_nonzero_x (v : Vec3D) (hx : v.x ≠ 0) :
    SphereInRange v.to_sphere ∧
    v.to_sphere_fp = (FVal.fin (v.to_sphere).azimuth, FVal.fin (v.to_sphere).polar,
      FVal.fin (v.to_sphere).radius) := by
  have hxy : v.length_xy ≠ 0 := by
    unfold Vec3D.length_xy
    have h : 0 < v.x ^ 2 + v.y ^ 2 := by positivity
    exact ne_of_gt (Real.sqrt_pos.mpr h)
  have h1 : ieeeDiv v.y v.x = FVal.fin (v.y / v.x) := by
    unfold ieeeDiv; rw [if_pos hx]
  have h2 : ieeeDiv v.z v.length_xy = FVal.fin (v.z / v.length_xy) := by
    unfold ieeeDiv; rw [if_pos hxy]
  refine ⟨⟨Real.sqrt_nonneg _, Real.neg_pi_div_two_lt_arctan _,
    Real.arctan_lt_pi_div_two _, Real.neg_pi_div_two_lt_arctan _,
    Real.arctan_lt_pi_div_two _⟩, ?_⟩
  simp [Vec3D.to_sphere_fp, Vec3D.to_sphere, h1, h2, ieeeAtan]

/-- Witness for the amended C6: the invariants and the IEEE agreement at the
all-ones vector, whose x component is nonzero. -/
theorem to_sphere_range_invariants_nonzero_x_witness :
    (Vec3D.mk 1 1 1).x ≠ 0 ∧
    (SphereInRange (Vec3D.to_sphere ⟨1, 1, 1⟩) ∧
      Vec3D.to_sphere_fp ⟨1, 1, 1⟩ =
        (FVal.fin (Vec3D.to_sphere ⟨1, 1, 1⟩).azimuth,
         FVal.fin (Vec3D.to_sphere ⟨1, 1, 1⟩).polar,
         FVal.fin (Vec3D.to_sphere ⟨1, 1, 1⟩).radius)) :=
  ⟨by norm_num, to_sphere_range_invariants_nonzero_x ⟨1, 1, 1⟩ (by norm_num)⟩

/-- C4: contrary to the claim, the 2D vector type does not implement the 3D
operations: `Vec2D::length` and `Vec2D::to_sphere` are `todo!()` stubs that
panic on every input (embedded as `none`), so `length()` never returns the
Euclidean norm and `to_sphere()` never returns a spherical vector. -/
theorem vec2d_length_to_sphere_unimplemented :
    (∀ v : Vec2D, v.length = none) ∧ (∀ v : Vec2D, v.to_sphere = none) :=
  ⟨fun _ => rfl, fun _ => rfl⟩

/-- C5: `Vec3D::new(3,4,0).length()` is 5, `Vec3D::new(3,4,3).length_xy()`
is 5, `Vec3D::new(3,4,3).to_2d()` is `Vec2D(5,3)`, and in general `to_2d()`
returns the vector whose x is `length_xy()` and whose y is the original z. -/
theorem projection_correctness :
    Vec3D.length ⟨3, 4, 0⟩ = 5 ∧ Vec3D.length_xy ⟨3, 4, 3⟩ = 5 ∧
    Vec3D.to_2d ⟨3, 4, 3⟩ = ⟨5, 3⟩ ∧
    ∀ v : Vec3D, v.to_2d = ⟨v.length_xy, v.z⟩ := by
  have hxy : Vec3D.length_xy ⟨3, 4, 3⟩ = 5 := by
    unfold Vec3D.length_xy
    rw [show (3 : ℝ) ^ 2 + 4 ^ 2 = 5 ^ 2 by norm_num]
    exact Real.sqrt_sq (by norm_num)
  refine ⟨?_, hxy, ?_, fun v => rfl⟩
  · unfold Vec3D.length
    rw [show (3 : ℝ) ^ 2 + 4 ^ 2 + 0 ^ 2 = 5 ^ 2 by norm_num]
    exact Real.sqrt_sq (by norm_num)
  · unfold Vec3D.to_2d
    rw [hxy]

/-- C9: for every 3D spherical vector, including those with negative radius,
the Cartesian vector returned by `to_vec()` has length equal to the absolute
value of the radius field, regardless of the azimuth and polar values. -/
theorem to_vec_length_eq_abs_radius (s : Vec3DSphere) :
    (s.to_vec).length = |s.radius| :=
  length_to_vec s

/-- C7: `to_sphere()` always sets the radius field to `length()`; for the
all-ones vector this radius is the square root of 3 and the azimuth is π/4;
and converting any radius-5 spherical vector to Cartesian and re-deriving
spherical values reproduces radius 5. -/
theorem to_sphere_radius_is_length :
    (∀ v : Vec3D, (v.to_sphere).radius = v.length) ∧
    (Vec3D.to_sphere ⟨1, 1, 1⟩).radius = Real.sqrt 3 ∧
    (Vec3D.to_sphere ⟨1, 1, 1⟩).azimuth = Real.pi / 4 ∧
    ∀ az pol : ℝ, ((Vec3DSphere.mk az pol 5).to_vec).to_sphere.radius = 5 := by
  refine ⟨fun v => rfl, length_unit, ?_, fun az pol => ?_⟩
  · show Real.arctan ((1 : ℝ) / 1) = Real.pi / 4
    rw [div_one]
    exact Real.arctan_one
  · show ((Vec3DSphere.mk az pol 5).to_vec).length = 5
    rw [length_to_vec]
    norm_num

/-- C2: contrary to the claim, converting the zero vector to spherical
propagates NaN: the code computes azimuth as `atan(0.0 / 0.0)`, and under
IEEE-754 arithmetic `0.0 / 0.0` is NaN and `atan(NaN)` is NaN; the polar
angle is `atan(0.0 / 0.0)` as well, since `length_xy()` of the zero vector
is 0.  Only the radius field is the finite value 0. -/
theorem to_sphere_zero_vector_nan :
    (Vec3D.to_sphere_fp ⟨0, 0, 0⟩).1 = FVal.nan ∧
    (Vec3D.to_sphere_fp ⟨0, 0, 0⟩).2.1 = FVal.nan ∧
    (Vec3D.to_sphere_fp ⟨0, 0, 0⟩).2.2 = FVal.fin 0 := by
  have hxy : Vec3D.length_xy ⟨0, 0, 0⟩ = 0 := by
    unfold Vec3D.length_xy; norm_num
  have hl : Vec3D.length ⟨0, 0, 0⟩ = 0 := by
    unfold Vec3D.length; norm_num
  refine ⟨?_, ?_, ?_⟩ <;>
    simp [Vec3D.to_sphere_fp, ieeeDiv, ieeeAtan, hxy, hl]

/-- C1: contrary to the claim, `to_sphere().to_vec()` is not the inverse of
`to_sphere()`: on the all-ones vector the round trip returns a z component
equal to the square root of 2, which differs from the original z component 1
by far more than the stated 1e-9 relative tolerance.  The cause is that
`to_sphere` stores `atan(z / length_xy)` (elevation above the xy-plane) in
the `polar` field, while `to_vec` interprets `polar` as the angle from the
z axis, as the field's own documentation says. -/
theorem roundtrip_not_inverse_on_unit :
    ((Vec3D.to_sphere ⟨1, 1, 1⟩).to_vec).z = Real.sqrt 2 ∧
    1 + 1e-9 < Real.sqrt 2 := by
  constructor
  · have hz : ((Vec3D.to_sphere ⟨1, 1, 1⟩).to_vec).z =
        Real.sqrt 3 * Real.cos (Real.arctan (1 / Real.sqrt 2)) := by
      simp [Vec3D.to_sphere, Vec3DSphere.to_vec, length_xy_unit, length_unit]
    have h3 : Real.sqrt 3 ≠ 0 := ne_of_gt (Real.sqrt_pos.mpr (by norm_num))
    rw [hz, cos_arctan_inv_sqrt_two, mul_comm, div_mul_cancel₀ _ h3]
  · refine (Real.lt_sqrt (by norm_num)).mpr ?_
    norm_num

/-- C3: `update_length` preserves magnitude but not direction: rescaling the
all-ones vector to length 1 gives a vector of length exactly 1 whose z
component is twice its x component (with x positive), whereas the original
direction has all three components equal.  The cause is the same
polar-angle inconsistency between `to_sphere` and `to_vec` as in the round
trip. -/
theorem update_length_direction_not_preserved :
    (Vec3D.update_length ⟨1, 1, 1⟩ 1).length = 1 ∧
    (Vec3D.update_length ⟨1, 1, 1⟩ 1).z = 2 * (Vec3D.update_length ⟨1, 1, 1⟩ 1).x ∧
    0 < (Vec3D.update_length ⟨1, 1, 1⟩ 1).x := by
  have hx : (Vec3D.update_length ⟨1, 1, 1⟩ 1).x =
      Real.cos (Real.arctan 1) * Real.sin (Real.arctan (1 / Real.sqrt 2)) := by
    simp [Vec3D.update_length, Vec3D.to_sphere, Vec3DSphere.to_vec, length_xy_unit]
  have hz : (Vec3D.update_length ⟨1, 1, 1⟩ 1).z =
      Real.cos (Real.arctan (1 / Real.sqrt 2)) := by
    simp [Vec3D.update_length, Vec3D.to_sphere, Vec3DSphere.to_vec, length_xy_unit]
  have h2 : (0 : ℝ) < Real.sqrt 2 := Real.sqrt_pos.mpr (by norm_num)
  have h3 : (0 : ℝ) < Real.sqrt 3 := Real.sqrt_pos.mpr (by norm_num)
  have hm : Real.sqrt 2 * Real.sqrt 2 = 2 := Real.mul_self_sqrt (by norm_num)
  refine ⟨?_, ?_, ?_⟩
  · unfold Vec3D.update_length
    rw [length_to_vec]
    norm_num
  · rw [hx, hz, cos_arctan_one, sin_arctan_inv_sqrt_two, cos_arctan_inv_sqrt_two]
    rw [div_eq_iff (ne_of_gt h3), mul_comm]
    field_simp
    rw [← mul_assoc, hm, mul_comm]
  · rw [hx, cos_arctan_one, sin_arctan_inv_sqrt_two]
    positivity

/-- C8: for every projectile and time delta the advance operation leaves the
horizontal velocity component unchanged, and when gravity is 0 it also
leaves the vertical velocity component unchanged over any number of steps. -/
theorem advance_velocity_invariants (p : Projectile) (dt : ℝ) (n : ℕ) :
    (p.advance dt).velocity.x = p.velocity.x ∧
    (p.gravity = 0 →
      ((fun q => Projectile.advance q dt)^[n] p).velocity.y = p.velocity.y) := by
  refine ⟨rfl, fun h0 => ?_⟩
  induction n with
  | zero => rfl
  | succ n ih =>
    rw [Function.iterate_succ_apply']
    show ((fun q => Projectile.advance q dt)^[n] p).velocity.y -
        ((fun q => Projectile.advance q dt)^[n] p).gravity * dt = p.velocity.y
    rw [iterate_advance_gravity, h0, ih]
    ring

/-- Witness for C8: the invariants at a concrete projectile, time delta 1 and
three steps, with the zero-gravity hypothesis discharged by rfl. -/
theorem advance_velocity_invariants_witness :
    (Projectile.advance ⟨⟨1, 2⟩, ⟨0, 0⟩, 0⟩ 1).velocity.x =
      (Projectile.mk ⟨1, 2⟩ ⟨0, 0⟩ 0).velocity.x ∧
    ((fun q => Projectile.advance q 1)^[3] ⟨⟨1, 2⟩, ⟨0, 0⟩, 0⟩).velocity.y =
      (Projectile.mk ⟨1, 2⟩ ⟨0, 0⟩ 0).velocity.y :=
  ⟨(advance_velocity_invariants ⟨⟨1, 2⟩, ⟨0, 0⟩, 0⟩ 1 3).1,
   (advance_velocity_invariants ⟨⟨1, 2⟩, ⟨0, 0⟩, 0⟩ 1 3).2 rfl⟩

end
